import Mathlib

/-
Verification of the configuration field-reference resolver and of the
generation pipeline of the go-template-sh project scaffolding generator.

Modelling conventions:
* Go `string` is modelled as Lean `String`, Go `[]string` as `List String`,
  Go `bool` as `Bool`.
* Go's `error` results are modelled as `Option String` (`none` = nil error,
  `some msg` = an error whose message is `msg`); `fmt.Errorf("...: %w", err)`
  becomes prefixing the wrapped message.
* The two regular expressions of `Config.Validate` are anchored character
  classes; they are embedded as executable character predicates
  (`projectNameMatches`, `modulePathMatches`).
* Filesystem effects of a generation run are modelled as the list of
  operations (`FsOp`) the run performs, in program order.  Content-producing
  helpers of the generator whose Go source never reads `Config.ConfigFormat`
  (neither directly nor through `getConfigFieldReference`) are abstracted as
  parameters (`AuxContent`): each such helper is an arbitrary function of the
  format-free projection of the configuration (`CoreConfig`) and, where the
  source passes them, of resolver results.  Every branch or content that does
  depend on `ConfigFormat` is embedded concretely from the source.
-/

/-- The nine catalog field names the generator's templates reference
(spec §3, "Field Catalog"). -/
def catalogFields : List String :=
  ["Port", "Environment", "LogLevel", "PostgresURL", "MySQLURL",
   "MongoURL", "RedisURL", "OTLPEndpoint", "ServiceName"]

/-- Embedding of `getConfigFieldReference` (generator package): the field
reference resolver.  The Go method reads only `g.config.ConfigFormat` and
its `field` argument, so it is modelled as a function of those two strings. -/
def getConfigFieldReference (configFormat field : String) : String :=
  if configFormat = "" ∨ configFormat = "env" then
    "cfg." ++ field
  else
    match field with
    | "Port" => "cfg.GetPort()"
    | "Environment" => "cfg.GetEnvironment()"
    | "LogLevel" => "cfg.GetLogLevel()"
    | "PostgresURL" => "cfg.GetPostgresURL()"
    | "MySQLURL" => "cfg.GetMySQLURL()"
    | "MongoURL" => "cfg.GetMongoURL()"
    | "RedisURL" => "cfg.GetRedisURL()"
    | "OTLPEndpoint" => "cfg.GetOTLPEndpoint()"
    | "ServiceName" => "cfg.GetServiceName()"
    | _ => "cfg." ++ field

/-- Embedding of `config.Config` (internal/config/config.go). -/
structure Config where
  ProjectName   : String
  ModulePath    : String
  GoVersion     : String
  Framework     : String
  Databases     : List String
  Logger        : String
  EnableTracing : Bool
  EnableMetrics : Bool
  IncludeDocker : Bool
  CI            : String
  ConfigFormat  : String
  EnvSample     : Bool

/-- `Config.HasDatabase` (slices.Contains on the databases list). -/
def Config.HasDatabase (c : Config) (db : String) : Bool :=
  c.Databases.contains db

/-- `Config.NeedsCache`. -/
def Config.NeedsCache (c : Config) : Bool := c.HasDatabase "redis"

/-- `Config.NeedsSQL`. -/
def Config.NeedsSQL (c : Config) : Bool :=
  c.HasDatabase "postgres" || c.HasDatabase "mysql"

/-- `Config.NeedsNoSQL`. -/
def Config.NeedsNoSQL (c : Config) : Bool := c.HasDatabase "mongodb"

/-- A character of the class `[a-z0-9]`. -/
def isLowerDigit (ch : Char) : Bool :=
  (('a' ≤ ch) && (ch ≤ 'z')) || (('0' ≤ ch) && (ch ≤ '9'))

/-- A character of the class `[a-z0-9-_]`. -/
def isProjectNameChar (ch : Char) : Bool :=
  isLowerDigit ch || ch == '-' || ch == '_'

/-- The anchored regex `^[a-z0-9][a-z0-9-_]*$` of `Config.Validate`. -/
def projectNameMatches (s : String) : Bool :=
  match s.toList with
  | [] => false
  | ch :: rest => isLowerDigit ch && rest.all isProjectNameChar

/-- A character of the class `[a-zA-Z0-9]`. -/
def isAlnumChar (ch : Char) : Bool :=
  (('a' ≤ ch) && (ch ≤ 'z')) || (('A' ≤ ch) && (ch ≤ 'Z')) ||
    (('0' ≤ ch) && (ch ≤ '9'))

/-- A character of the class `[a-zA-Z0-9._-]`. -/
def isModuleSegChar (ch : Char) : Bool :=
  isAlnumChar ch || ch == '.' || ch == '_' || ch == '-'

/-- One segment of the module-path regex: `[a-zA-Z0-9][a-zA-Z0-9._-]*`. -/
def moduleSegMatches : List Char → Bool
  | [] => false
  | ch :: rest => isAlnumChar ch && rest.all isModuleSegChar

/-- Split a character list on `/`, keeping empty segments (the semantics of
`strings.Split` on a single-character separator). -/
def splitSlash : List Char → List (List Char)
  | [] => [[]]
  | ch :: rest =>
    if ch = '/' then [] :: splitSlash rest
    else
      match splitSlash rest with
      | seg :: segs => (ch :: seg) :: segs
      | [] => [[ch]]

/-- The anchored regex `^[a-zA-Z0-9][a-zA-Z0-9._-]*(/[a-zA-Z0-9][a-zA-Z0-9._-]*)+$`
of `Config.Validate`: at least two `/`-separated segments, each matching
the segment class. -/
def modulePathMatches (s : String) : Bool :=
  let segs := splitSlash s.toList
  decide (2 ≤ segs.length) && segs.all moduleSegMatches

/-- Embedding of `Config.Validate` (internal/config/config.go, lines 25-71):
the first failing check yields its error message; Go's `%v` rendering of the
valid-value slices is spelled out. -/
def Config.Validate (c : Config) : Option String :=
  if c.ProjectName = "" then
    some "project name is required"
  else if !projectNameMatches c.ProjectName then
    some "project name must start with lowercase letter or number and contain only lowercase letters, numbers, hyphens, and underscores"
  else if c.ModulePath = "" then
    some "module path is required"
  else if !modulePathMatches c.ModulePath then
    some "module path must be a valid Go module path (e.g., github.com/user/project)"
  else if c.GoVersion = "" then
    some "Go version is required"
  else if !(["1.21", "1.22", "1.23", "1.24"] : List String).contains c.GoVersion then
    some "Go version must be one of: [1.21 1.22 1.23 1.24]"
  else if c.Framework ≠ "" && !(["stdlib", "chi", "gin", "echo", "fiber"] : List String).contains c.Framework then
    some "framework must be one of: [stdlib chi gin echo fiber]"
  else if c.Logger ≠ "" && !(["slog", "zap", "zerolog"] : List String).contains c.Logger then
    some "logger must be one of: [slog zap zerolog]"
  else if !(["", "env", "yaml", "json", "toml"] : List String).contains c.ConfigFormat then
    some "config format must be one of: env, yaml, json, toml"
  else
    none

/-- A character that may start a Go identifier. -/
def isIdentStartChar (ch : Char) : Bool := ch.isAlpha || ch == '_'

/-- A character that may continue a Go identifier. -/
def isIdentChar (ch : Char) : Bool := isIdentStartChar ch || ch.isDigit

/-- A non-empty Go identifier, as a character list. -/
def isGoIdentList : List Char → Bool
  | [] => false
  | ch :: rest => isIdentStartChar ch && rest.all isIdentChar

/-- Formalisation of the spec's "syntactically valid access expression": the
string is `cfg.` followed by a Go identifier (a flat field access), or `cfg.`
followed by a Go identifier and `()` (an accessor method call). -/
def isGoAccessExpr (s : String) : Bool :=
  match s.toList with
  | 'c' :: 'f' :: 'g' :: '.' :: rest =>
    isGoIdentList rest ||
      (match rest.reverse with
       | ')' :: '(' :: revIdent => isGoIdentList revIdent.reverse
       | _ => false)
  | _ => false

/-- Embedding of the `Generator` record (internal/generator/generator.go);
the in-memory filesystem handle carries no data relevant to the claims. -/
structure Generator where
  config : Config
  outputDir : String
  projectDir : String

/-- State-passing embedding of the method call
`g.getConfigFieldReference(field)`: the result paired with the post-state of
the receiver.  The Go method body (part_003 lines 119-147) contains no
assignment to `g` or `g.config`, so the post-state is the unchanged `g`. -/
def Generator.resolveCall (g : Generator) (field : String) : String × Generator :=
  (getConfigFieldReference g.config.ConfigFormat field, g)

/-- C1: for every structured format (yaml, json, toml) and each of the nine
catalog field names, `getConfigFieldReference` returns the accessor-call
expression `"cfg.Get" ++ field ++ "()"`. -/
theorem structured_formats_catalog_accessor :
    ∀ fmt ∈ (["yaml", "json", "toml"] : List String),
      ∀ f ∈ catalogFields,
        getConfigFieldReference fmt f = "cfg.Get" ++ f ++ "()" := by
  decide

/-- Witness for C1 at format `yaml`, field `Port`. -/
theorem structured_formats_catalog_accessor_witness :
    "yaml" ∈ (["yaml", "json", "toml"] : List String) ∧
    "Port" ∈ catalogFields ∧
    getConfigFieldReference "yaml" "Port" = "cfg.GetPort()" :=
  ⟨by decide, by decide,
    structured_formats_catalog_accessor "yaml" (by decide) "Port" (by decide)⟩

/-- C2: with format `env` or the empty string, the resolver returns the
flat-access expression `"cfg." ++ field` for every input field name. -/
theorem env_and_empty_format_flat_access (field : String) :
    getConfigFieldReference "env" field = "cfg." ++ field ∧
    getConfigFieldReference "" field = "cfg." ++ field :=
  ⟨rfl, rfl⟩

/-- C3: for every string outside the nine-name catalog and every format, the
resolver returns the flat-access string `"cfg." ++ s`; being a total Lean
function of type `String → String → String`, it has no failure path. -/
theorem unknown_field_flat_access_all_formats (s : String)
    (hs : s ∉ catalogFields) (fmt : String) :
    getConfigFieldReference fmt s = "cfg." ++ s := by
  simp only [catalogFields, List.mem_cons, List.not_mem_nil, or_false,
    not_or] at hs
  obtain ⟨h1, h2, h3, h4, h5, h6, h7, h8, h9⟩ := hs
  unfold getConfigFieldReference
  split
  · rfl
  · split <;> simp_all

/-- Witness for C3 at the non-catalog name `DoesNotExist` and format `yaml`. -/
theorem unknown_field_flat_access_all_formats_witness :
    "DoesNotExist" ∉ catalogFields ∧
    getConfigFieldReference "yaml" "DoesNotExist" = "cfg.DoesNotExist" :=
  ⟨by decide,
    unknown_field_flat_access_all_formats "DoesNotExist" (by decide) "yaml"⟩

/-- C6: for every field name, the resolver's result is identical across the
three structured formats yaml, json and toml. -/
theorem structured_formats_resolve_identically (f : String) :
    getConfigFieldReference "yaml" f = getConfigFieldReference "json" f ∧
    getConfigFieldReference "json" f = getConfigFieldReference "toml" f :=
  ⟨rfl, rfl⟩

/-- C7: for every catalog field and every documented format value (empty,
env, yaml, json, toml), the resolver returns a non-empty string that is a
syntactically valid Go access expression. -/
theorem resolver_returns_valid_access_expr :
    ∀ f ∈ catalogFields,
      ∀ fmt ∈ (["", "env", "yaml", "json", "toml"] : List String),
        getConfigFieldReference fmt f ≠ "" ∧
        isGoAccessExpr (getConfigFieldReference fmt f) = true := by
  decide

/-- Witness for C7 at field `Port`, format `yaml`. -/
theorem resolver_returns_valid_access_expr_witness :
    "Port" ∈ catalogFields ∧
    "yaml" ∈ (["", "env", "yaml", "json", "toml"] : List String) ∧
    (getConfigFieldReference "yaml" "Port" ≠ "" ∧
      isGoAccessExpr (getConfigFieldReference "yaml" "Port") = true) :=
  ⟨by decide, by decide,
    resolver_returns_valid_access_expr "Port" (by decide) "yaml" (by decide)⟩

/-- C8: the resolver is deterministic and pure: in the state-passing
embedding of the method, two successive calls with identical arguments
return identical strings, and a call leaves the receiver (hence its Config)
unchanged. -/
theorem resolver_deterministic_and_pure (g : Generator) (field : String) :
    (g.resolveCall field).1
        = (((g.resolveCall field).2).resolveCall field).1 ∧
    (g.resolveCall field).2 = g :=
  ⟨rfl, rfl⟩

/-- C9: the flat env-style access applies only to the exact format strings
`""` and `"env"`: for every other format string (`"ENV"`, `"xml"`, ...),
catalog fields resolve to the structured accessor call. -/
theorem non_env_format_takes_structured_path (fmt : String)
    (h : ¬ (fmt = "" ∨ fmt = "env")) :
    ∀ f ∈ catalogFields,
      getConfigFieldReference fmt f = "cfg.Get" ++ f ++ "()" := by
  intro f hf
  unfold getConfigFieldReference
  rw [if_neg h]
  fin_cases hf <;> rfl

/-- Witness for C9 at the unrecognized format `ENV`, field `Port`. -/
theorem non_env_format_takes_structured_path_witness :
    ¬ (("ENV" : String) = "" ∨ ("ENV" : String) = "env") ∧
    "Port" ∈ catalogFields ∧
    getConfigFieldReference "ENV" "Port" = "cfg.GetPort()" :=
  ⟨by decide, by decide,
    non_env_format_takes_structured_path "ENV" (by decide) "Port" (by decide)⟩

/-- The format-free projection of a `Config`: every field except
`ConfigFormat`.  Content helpers of the generator whose Go source never
reads `ConfigFormat` are modelled as arbitrary functions of this
projection. -/
structure CoreConfig where
  ProjectName   : String
  ModulePath    : String
  GoVersion     : String
  Framework     : String
  Databases     : List String
  Logger        : String
  EnableTracing : Bool
  EnableMetrics : Bool
  IncludeDocker : Bool
  CI            : String
  EnvSample     : Bool

/-- Drop the `ConfigFormat` field. -/
def Config.core (c : Config) : CoreConfig :=
  ⟨c.ProjectName, c.ModulePath, c.GoVersion, c.Framework, c.Databases,
   c.Logger, c.EnableTracing, c.EnableMetrics, c.IncludeDocker, c.CI,
   c.EnvSample⟩

/-- One filesystem effect of a generation run: `MkdirAll` or `WriteFile`
(via `Generator.writeFile`), with the path and, for writes, the content. -/
inductive FsOp where
  | mkdir (path : String)
  | write (path : String) (content : String)
deriving DecidableEq

/-- `filepath.Join` on the clean, slash-free-suffix paths the generator
uses: plain slash concatenation. -/
def pjoin (a b : String) : String := a ++ "/" ++ b

/-- Embedding of `buildDependencies` (internal/generator/templates.go):
the `require` lines of the generated go.mod, in append order.  The
configuration-format switch maps yaml and toml to their parser modules and
both `env` and the default (hence the empty format) to godotenv. -/
def buildDependencies (c : Config) : List String :=
  (match c.Framework with
   | "chi" => ["\tgithub.com/go-chi/chi/v5 v5.0.11"]
   | "gin" => ["\tgithub.com/gin-gonic/gin v1.10.0"]
   | "echo" => ["\tgithub.com/labstack/echo/v4 v4.11.4"]
   | "fiber" => ["\tgithub.com/gofiber/fiber/v2 v2.52.0"]
   | _ => [])
  ++ (if c.Logger = "zap" then ["\tgo.uber.org/zap v1.26.0"]
      else if c.Logger = "zerolog" then ["\tgithub.com/rs/zerolog v1.32.0"]
      else [])
  ++ (if c.HasDatabase "postgres" then ["\tgithub.com/jackc/pgx/v5 v5.5.1"] else [])
  ++ (if c.HasDatabase "mysql" then ["\tgithub.com/go-sql-driver/mysql v1.7.1"] else [])
  ++ (if c.HasDatabase "mongodb" then ["\tgo.mongodb.org/mongo-driver v1.13.1"] else [])
  ++ (if c.HasDatabase "redis" then ["\tgithub.com/redis/go-redis/v9 v9.4.0"] else [])
  ++ (if c.EnableTracing then
        ["\tgo.opentelemetry.io/otel v1.22.0",
         "\tgo.opentelemetry.io/otel/sdk v1.22.0",
         "\tgo.opentelemetry.io/otel/exporters/otlp/otlptrace/otlptracegrpc v1.22.0"]
      else [])
  ++ (if c.EnableMetrics then ["\tgithub.com/prometheus/client_golang v1.18.0"] else [])
  ++ (match c.ConfigFormat with
      | "yaml" => ["\tgopkg.in/yaml.v3 v3.0.1"]
      | "toml" => ["\tgithub.com/BurntSushi/toml v1.3.2"]
      | "env" => ["\tgithub.com/joho/godotenv v1.5.1"]
      | _ => ["\tgithub.com/joho/godotenv v1.5.1"])
  ++ ["\tgithub.com/stretchr/testify v1.8.4", "\tgo.uber.org/mock v0.4.0"]

/-- Embedding of the go.mod content of `generateGoMod`
(internal/generator/templates.go). -/
def goModContent (c : Config) : String :=
  "module " ++ c.ModulePath ++ "\n\ngo " ++ c.GoVersion ++
    "\n\nrequire (\n" ++ String.intercalate "\n" (buildDependencies c) ++ "\n)\n"

/-- Embedding of the `internal/database/postgres.go` content produced by
`generatePostgresDB` (internal/generator/database.go, lines 29-70): the
source template with its two `%s` verbs substituted by the module path and
by the resolver's result for `PostgresURL`. -/
def postgresContent (c : Config) : String :=
  "package database\n\nimport (\n\t\"context\"\n\t\"fmt\"\n\n\t\"github.com/jackc/pgx/v5/pgxpool\"\n\t\""
  ++ c.ModulePath ++
  "/internal/config\"\n)\n\ntype PostgresDB struct \x7b\n\tpool *pgxpool.Pool\n\x7d\n\nfunc NewPostgresDB(ctx context.Context, cfg *config.Config) (*PostgresDB, error) \x7b\n\tpool, err := pgxpool.New(ctx, "
  ++ getConfigFieldReference c.ConfigFormat "PostgresURL" ++
  ")\n\tif err != nil \x7b\n\t\treturn nil, fmt.Errorf(\"failed to create connection pool: %w\", err)\n\t\x7d\n\n\tif err := pool.Ping(ctx); err != nil \x7b\n\t\treturn nil, fmt.Errorf(\"failed to ping database: %w\", err)\n\t\x7d\n\n\treturn &PostgresDB\x7bpool: pool\x7d, nil\n\x7d\n\nfunc (db *PostgresDB) Close() \x7b\n\tif db.pool != nil \x7b\n\t\tdb.pool.Close()\n\t\x7d\n\x7d\n\nfunc (db *PostgresDB) Pool() *pgxpool.Pool \x7b\n\treturn db.pool\n\x7d\n"

/-- Embedding of the `internal/cache/redis.go` content produced by
`generateCachePackage` (internal/generator/database.go, lines 176-221): the
source template with its two `%s` verbs substituted by the module path and
by the resolver's result for `RedisURL`. -/
def redisContent (c : Config) : String :=
  "package cache\n\nimport (\n\t\"context\"\n\t\"fmt\"\n\n\t\"github.com/redis/go-redis/v9\"\n\t\""
  ++ c.ModulePath ++
  "/internal/config\"\n)\n\ntype RedisCache struct \x7b\n\tclient *redis.Client\n\x7d\n\nfunc NewRedisCache(ctx context.Context, cfg *config.Config) (*RedisCache, error) \x7b\n\topts, err := redis.ParseURL("
  ++ getConfigFieldReference c.ConfigFormat "RedisURL" ++
  ")\n\tif err != nil \x7b\n\t\treturn nil, fmt.Errorf(\"failed to parse Redis URL: %w\", err)\n\t\x7d\n\n\tclient := redis.NewClient(opts)\n\n\tif err := client.Ping(ctx).Err(); err != nil \x7b\n\t\treturn nil, fmt.Errorf(\"failed to ping Redis: %w\", err)\n\t\x7d\n\n\treturn &RedisCache\x7bclient: client\x7d, nil\n\x7d\n\nfunc (c *RedisCache) Close() error \x7b\n\tif c.client != nil \x7b\n\t\treturn c.client.Close()\n\t\x7d\n\treturn nil\n\x7d\n\nfunc (c *RedisCache) Client() *redis.Client \x7b\n\treturn c.client\n\x7d\n"

/-- Embedding of `getTestConfigFields` (internal/generator/tests.go,
lines 187-197): the config-literal fields spliced into the generated
handler test file. -/
def getTestConfigFields (configFormat : String) : String :=
  if configFormat = "" ∨ configFormat = "env" then
    "\t\tEnvironment: \"test\",\n\t\tPort:        \"8080\","
  else
    "\t\tApp: config.AppConfig\x7b\n\t\t\tEnvironment: \"test\",\n\t\t\tPort:        8080,\n\t\t\x7d,"

/-- The content helpers of the generator whose Go source never reads
`Config.ConfigFormat`: each is an arbitrary function of the format-free
configuration and, where the source passes them, of resolver results.
Slots are named after the Go functions they abstract. -/
structure AuxContent where
  mainFile : CoreConfig → String → String
  envConfigPackage : CoreConfig → String
  serverFile : CoreConfig → String → String → String
  handlersFile : CoreConfig → String
  middlewareFile : CoreConfig → String
  observabilityFile : CoreConfig → String
  loggerFile : CoreConfig → String
  mysqlFile : CoreConfig → String → String
  mongoFile : CoreConfig → String → String
  makefile : CoreConfig → String
  envExample : CoreConfig → String
  yamlConfigExample : CoreConfig → String
  yamlConfigLoader : CoreConfig → String
  jsonConfigExample : CoreConfig → String
  jsonConfigLoader : CoreConfig → String
  tomlConfigExample : CoreConfig → String
  tomlConfigLoader : CoreConfig → String
  readme : CoreConfig → String
  dockerfile : CoreConfig → String
  dockerCompose : CoreConfig → String
  dockerignore : CoreConfig → String
  githubCI : CoreConfig → String
  gitlabCI : CoreConfig → String
  gitignore : CoreConfig → String
  handlerTest : CoreConfig → String → String → String
  mockInterfaces : CoreConfig → String
  databaseTest : CoreConfig → String
  testingReadme : CoreConfig → String

/-- Embedding of `createDirectoryStructure` (generator.go, lines 145-178):
the directories created, in order. -/
def dirList (c : Config) (pdir : String) : List String :=
  [pdir,
   pjoin pdir ("cmd/" ++ c.ProjectName),
   pjoin pdir "internal/config",
   pjoin pdir "internal/server",
   pjoin pdir "internal/handlers",
   pjoin pdir "internal/middleware",
   pjoin pdir "internal/observability",
   pjoin pdir "pkg"]
  ++ (if c.NeedsSQL || c.NeedsNoSQL then [pjoin pdir "internal/database"] else [])
  ++ (if c.NeedsCache then [pjoin pdir "internal/cache"] else [])
  ++ [pjoin pdir "internal/mocks", pjoin pdir "docs"]

/-- Embedding of `generateDatabasePackages` (database.go, lines 7-27). -/
def databaseOps (aux : AuxContent) (c : Config) (pdir : String) : List FsOp :=
  (if c.HasDatabase "postgres" then
     [.write (pjoin pdir "internal/database/postgres.go") (postgresContent c)]
   else [])
  ++ (if c.HasDatabase "mysql" then
        [.write (pjoin pdir "internal/database/mysql.go")
          (aux.mysqlFile c.core (getConfigFieldReference c.ConfigFormat "MySQLURL"))]
      else [])
  ++ (if c.HasDatabase "mongodb" then
        [.write (pjoin pdir "internal/database/mongodb.go")
          (aux.mongoFile c.core (getConfigFieldReference c.ConfigFormat "MongoURL"))]
      else [])

/-- Embedding of `generateConfigFiles` (config_files.go, lines 8-33): the
per-format example file and loader; any other format (including the empty
string) writes nothing. -/
def configFilesOps (aux : AuxContent) (c : Config) (pdir : String) : List FsOp :=
  match c.ConfigFormat with
  | "yaml" =>
    [.write (pjoin pdir "config.yaml.example") (aux.yamlConfigExample c.core),
     .write (pjoin pdir "internal/config/config.go") (aux.yamlConfigLoader c.core)]
  | "json" =>
    [.write (pjoin pdir "config.json.example") (aux.jsonConfigExample c.core),
     .write (pjoin pdir "internal/config/config.go") (aux.jsonConfigLoader c.core)]
  | "toml" =>
    [.write (pjoin pdir "config.toml.example") (aux.tomlConfigExample c.core),
     .write (pjoin pdir "internal/config/config.go") (aux.tomlConfigLoader c.core)]
  | _ => []

/-- Embedding of `generateCIFiles` (ci.go, lines 5-14) under the guard
`c.CI != ""` of Generate (generator.go, line 128). -/
def ciOps (aux : AuxContent) (c : Config) (pdir : String) : List FsOp :=
  if c.CI = "" then []
  else
    match c.CI with
    | "github" => [.write (pjoin pdir ".github/workflows/ci.yml") (aux.githubCI c.core)]
    | "gitlab" => [.write (pjoin pdir ".gitlab-ci.yml") (aux.gitlabCI c.core)]
    | _ => []

/-- Embedding of `generateTestFiles` (tests.go, lines 8-25): the handler
test (whose content receives `getTestConfigFields` and the resolver's
`Environment` reference), the mocks and database-test files when a database
is configured, and the testing readme. -/
def testOps (aux : AuxContent) (c : Config) (pdir : String) : List FsOp :=
  [.write (pjoin pdir "internal/handlers/handlers_test.go")
    (aux.handlerTest c.core (getTestConfigFields c.ConfigFormat)
      (getConfigFieldReference c.ConfigFormat "Environment"))]
  ++ (if c.NeedsSQL || c.NeedsNoSQL then
        [.write (pjoin pdir "internal/mocks/interfaces.go") (aux.mockInterfaces c.core)]
      else [])
  ++ (if c.NeedsSQL || c.NeedsNoSQL then
        [.write (pjoin pdir "internal/database/database_test.go") (aux.databaseTest c.core)]
      else [])
  ++ [.write (pjoin pdir "docs/TESTING.md") (aux.testingReadme c.core)]

/-- Embedding of `Generator.Generate` (generator.go, lines 46-143) over the
in-memory filesystem: the configuration is validated first; a validation
error is returned wrapped as `"invalid configuration: " ++ msg` with no
filesystem operation performed; otherwise the run performs the directory
creations and file writes of the sub-generators, in program order. -/
def generate (aux : AuxContent) (outputDir : String) (c : Config) :
    List FsOp × Option String :=
  let pdir := pjoin outputDir c.ProjectName
  match c.Validate with
  | some e => ([], some ("invalid configuration: " ++ e))
  | none =>
    ((dirList c pdir).map FsOp.mkdir
     ++ [.write (pjoin pdir "go.mod") (goModContent c)]
     ++ [.write (pjoin pdir ("cmd/" ++ c.ProjectName ++ "/main.go"))
          (aux.mainFile c.core (getConfigFieldReference c.ConfigFormat "Port"))]
     ++ (if c.ConfigFormat = "" ∨ c.ConfigFormat = "env" then
           [.write (pjoin pdir "internal/config/config.go")
             (aux.envConfigPackage c.core)]
         else [])
     ++ [.write (pjoin pdir "internal/server/server.go")
          (aux.serverFile c.core (getConfigFieldReference c.ConfigFormat "Port")
            (getConfigFieldReference c.ConfigFormat "Environment"))]
     ++ [.write (pjoin pdir "internal/handlers/handlers.go") (aux.handlersFile c.core)]
     ++ [.write (pjoin pdir "internal/middleware/middleware.go") (aux.middlewareFile c.core)]
     ++ [.write (pjoin pdir "internal/observability/observability.go")
          (aux.observabilityFile c.core)]
     ++ [.write (pjoin pdir "internal/observability/logger.go") (aux.loggerFile c.core)]
     ++ (if c.NeedsSQL || c.NeedsNoSQL then databaseOps aux c pdir else [])
     ++ (if c.NeedsCache then
           [.write (pjoin pdir "internal/cache/redis.go") (redisContent c)]
         else [])
     ++ [.write (pjoin pdir "Makefile") (aux.makefile c.core)]
     ++ [.write (pjoin pdir ".env.example") (aux.envExample c.core)]
     ++ (if c.ConfigFormat ≠ "env" then configFilesOps aux c pdir else [])
     ++ [.write (pjoin pdir "README.md") (aux.readme c.core)]
     ++ (if c.IncludeDocker then
           [.write (pjoin pdir "Dockerfile") (aux.dockerfile c.core),
            .write (pjoin pdir "docker-compose.yml") (aux.dockerCompose c.core),
            .write (pjoin pdir ".dockerignore") (aux.dockerignore c.core)]
         else [])
     ++ ciOps aux c pdir
     ++ [.write (pjoin pdir ".gitignore") (aux.gitignore c.core)]
     ++ testOps aux c pdir,
     none)

/-- `pat` occurs at the head of the character list. -/
def matchHead : List Char → List Char → Bool
  | [], _ => true
  | _ :: _, [] => false
  | a :: as, b :: bs => a == b && matchHead as bs

/-- `pat` occurs somewhere in the character list. -/
def hasSubList (pat : List Char) : List Char → Bool
  | [] => matchHead pat []
  | ch :: rest => matchHead pat (ch :: rest) || hasSubList pat rest

/-- `s` contains `pat` as a (contiguous) substring. -/
def containsSubstr (s pat : String) : Bool := hasSubList pat.toList s.toList

/-- The generation run writes a file at path `p` whose content contains
`pat` as a substring. -/
def writesContentContaining (ops : List FsOp) (p pat : String) : Bool :=
  ops.any fun op =>
    match op with
    | .write q content => q == p && containsSubstr content pat
    | .mkdir _ => false

/-- A vacuous instantiation of the abstract content helpers, used only to
instantiate universally quantified theorems at a concrete input. -/
def trivialContent : AuxContent :=
  ⟨fun _ _ => "", fun _ => "", fun _ _ _ => "", fun _ => "", fun _ => "",
   fun _ => "", fun _ => "", fun _ _ => "", fun _ _ => "", fun _ => "",
   fun _ => "", fun _ => "", fun _ => "", fun _ => "", fun _ => "",
   fun _ => "", fun _ => "", fun _ => "", fun _ => "", fun _ => "",
   fun _ => "", fun _ => "", fun _ => "", fun _ => "", fun _ _ _ => "",
   fun _ => "", fun _ => "", fun _ => ""⟩

/-- A json-format configuration with databases postgres and redis. -/
def cfgJsonPR : Config :=
  ⟨"myapp", "github.com/user/myapp", "1.22", "", ["postgres", "redis"],
   "", false, false, false, "", "json", false⟩

/-- The same configuration with config format `env`. -/
def cfgEnvPR : Config := { cfgJsonPR with ConfigFormat := "env" }

/-- A configuration rejected by `Config.Validate` (empty project name). -/
def invalidConfig : Config :=
  ⟨"", "github.com/user/myapp", "1.22", "", [], "", false, false, false,
   "", "env", false⟩

/-- The postgres.go content for `cfgJsonPR`, flattened to a literal. -/
theorem postgresContent_cfgJsonPR_eq :
    postgresContent cfgJsonPR = "package database\n\nimport (\n\t\"context\"\n\t\"fmt\"\n\n\t\"github.com/jackc/pgx/v5/pgxpool\"\n\t\"github.com/user/myapp/internal/config\"\n)\n\ntype PostgresDB struct \x7b\n\tpool *pgxpool.Pool\n\x7d\n\nfunc NewPostgresDB(ctx context.Context, cfg *config.Config) (*PostgresDB, error) \x7b\n\tpool, err := pgxpool.New(ctx, cfg.GetPostgresURL())\n\tif err != nil \x7b\n\t\treturn nil, fmt.Errorf(\"failed to create connection pool: %w\", err)\n\t\x7d\n\n\tif err := pool.Ping(ctx); err != nil \x7b\n\t\treturn nil, fmt.Errorf(\"failed to ping database: %w\", err)\n\t\x7d\n\n\treturn &PostgresDB\x7bpool: pool\x7d, nil\n\x7d\n\nfunc (db *PostgresDB) Close() \x7b\n\tif db.pool != nil \x7b\n\t\tdb.pool.Close()\n\t\x7d\n\x7d\n\nfunc (db *PostgresDB) Pool() *pgxpool.Pool \x7b\n\treturn db.pool\n\x7d\n" := by
  simp [postgresContent, cfgJsonPR, getConfigFieldReference]

/-- The postgres.go content for `cfgEnvPR`, flattened to a literal. -/
theorem postgresContent_cfgEnvPR_eq :
    postgresContent cfgEnvPR = "package database\n\nimport (\n\t\"context\"\n\t\"fmt\"\n\n\t\"github.com/jackc/pgx/v5/pgxpool\"\n\t\"github.com/user/myapp/internal/config\"\n)\n\ntype PostgresDB struct \x7b\n\tpool *pgxpool.Pool\n\x7d\n\nfunc NewPostgresDB(ctx context.Context, cfg *config.Config) (*PostgresDB, error) \x7b\n\tpool, err := pgxpool.New(ctx, cfg.PostgresURL)\n\tif err != nil \x7b\n\t\treturn nil, fmt.Errorf(\"failed to create connection pool: %w\", err)\n\t\x7d\n\n\tif err := pool.Ping(ctx); err != nil \x7b\n\t\treturn nil, fmt.Errorf(\"failed to ping database: %w\", err)\n\t\x7d\n\n\treturn &PostgresDB\x7bpool: pool\x7d, nil\n\x7d\n\nfunc (db *PostgresDB) Close() \x7b\n\tif db.pool != nil \x7b\n\t\tdb.pool.Close()\n\t\x7d\n\x7d\n\nfunc (db *PostgresDB) Pool() *pgxpool.Pool \x7b\n\treturn db.pool\n\x7d\n" := by
  simp [postgresContent, cfgEnvPR, cfgJsonPR, getConfigFieldReference]

/-- The redis.go content for `cfgJsonPR`, flattened to a literal. -/
theorem redisContent_cfgJsonPR_eq :
    redisContent cfgJsonPR = "package cache\n\nimport (\n\t\"context\"\n\t\"fmt\"\n\n\t\"github.com/redis/go-redis/v9\"\n\t\"github.com/user/myapp/internal/config\"\n)\n\ntype RedisCache struct \x7b\n\tclient *redis.Client\n\x7d\n\nfunc NewRedisCache(ctx context.Context, cfg *config.Config) (*RedisCache, error) \x7b\n\topts, err := redis.ParseURL(cfg.GetRedisURL())\n\tif err != nil \x7b\n\t\treturn nil, fmt.Errorf(\"failed to parse Redis URL: %w\", err)\n\t\x7d\n\n\tclient := redis.NewClient(opts)\n\n\tif err := client.Ping(ctx).Err(); err != nil \x7b\n\t\treturn nil, fmt.Errorf(\"failed to ping Redis: %w\", err)\n\t\x7d\n\n\treturn &RedisCache\x7bclient: client\x7d, nil\n\x7d\n\nfunc (c *RedisCache) Close() error \x7b\n\tif c.client != nil \x7b\n\t\treturn c.client.Close()\n\t\x7d\n\treturn nil\n\x7d\n\nfunc (c *RedisCache) Client() *redis.Client \x7b\n\treturn c.client\n\x7d\n" := by
  simp [redisContent, cfgJsonPR, getConfigFieldReference]

/-- The redis.go content for `cfgEnvPR`, flattened to a literal. -/
theorem redisContent_cfgEnvPR_eq :
    redisContent cfgEnvPR = "package cache\n\nimport (\n\t\"context\"\n\t\"fmt\"\n\n\t\"github.com/redis/go-redis/v9\"\n\t\"github.com/user/myapp/internal/config\"\n)\n\ntype RedisCache struct \x7b\n\tclient *redis.Client\n\x7d\n\nfunc NewRedisCache(ctx context.Context, cfg *config.Config) (*RedisCache, error) \x7b\n\topts, err := redis.ParseURL(cfg.RedisURL)\n\tif err != nil \x7b\n\t\treturn nil, fmt.Errorf(\"failed to parse Redis URL: %w\", err)\n\t\x7d\n\n\tclient := redis.NewClient(opts)\n\n\tif err := client.Ping(ctx).Err(); err != nil \x7b\n\t\treturn nil, fmt.Errorf(\"failed to ping Redis: %w\", err)\n\t\x7d\n\n\treturn &RedisCache\x7bclient: client\x7d, nil\n\x7d\n\nfunc (c *RedisCache) Close() error \x7b\n\tif c.client != nil \x7b\n\t\treturn c.client.Close()\n\t\x7d\n\treturn nil\n\x7d\n\nfunc (c *RedisCache) Client() *redis.Client \x7b\n\treturn c.client\n\x7d\n" := by
  simp [redisContent, cfgEnvPR, cfgJsonPR, getConfigFieldReference]

set_option maxRecDepth 16000 in
/-- C4: generating with config format json and databases [postgres, redis]
writes `internal/database/postgres.go` with content containing
`cfg.GetPostgresURL()` and `internal/cache/redis.go` with content containing
`cfg.GetRedisURL()`; generating the same project with format env writes the
same files containing `cfg.PostgresURL` and `cfg.RedisURL` as direct field
accesses, with no accessor-call parentheses after them. -/
theorem generated_db_files_follow_config_format (aux : AuxContent) :
    (FsOp.write (pjoin (pjoin "out" "myapp") "internal/database/postgres.go")
        (postgresContent cfgJsonPR) ∈ (generate aux "out" cfgJsonPR).1) ∧
    containsSubstr (postgresContent cfgJsonPR) "cfg.GetPostgresURL()" = true ∧
    (FsOp.write (pjoin (pjoin "out" "myapp") "internal/cache/redis.go")
        (redisContent cfgJsonPR) ∈ (generate aux "out" cfgJsonPR).1) ∧
    containsSubstr (redisContent cfgJsonPR) "cfg.GetRedisURL()" = true ∧
    (FsOp.write (pjoin (pjoin "out" "myapp") "internal/database/postgres.go")
        (postgresContent cfgEnvPR) ∈ (generate aux "out" cfgEnvPR).1) ∧
    containsSubstr (postgresContent cfgEnvPR) "cfg.PostgresURL" = true ∧
    containsSubstr (postgresContent cfgEnvPR) "cfg.PostgresURL()" = false ∧
    (FsOp.write (pjoin (pjoin "out" "myapp") "internal/cache/redis.go")
        (redisContent cfgEnvPR) ∈ (generate aux "out" cfgEnvPR).1) ∧
    containsSubstr (redisContent cfgEnvPR) "cfg.RedisURL" = true ∧
    containsSubstr (redisContent cfgEnvPR) "cfg.RedisURL()" = false := by
  have hvj : cfgJsonPR.Validate = none := by decide
  have hve : cfgEnvPR.Validate = none := by decide
  simp only [cfgJsonPR] at hvj
  simp only [cfgEnvPR, cfgJsonPR] at hve
  refine ⟨?_, ?_, ?_, ?_, ?_, ?_, ?_, ?_, ?_, ?_⟩
  · simp [generate, databaseOps, configFilesOps, ciOps, testOps, dirList,
    Config.NeedsSQL, Config.NeedsNoSQL, Config.NeedsCache, Config.HasDatabase,
    List.contains, hvj, cfgJsonPR]
  · rw [postgresContent_cfgJsonPR_eq]; decide
  · simp [generate, databaseOps, configFilesOps, ciOps, testOps, dirList,
    Config.NeedsSQL, Config.NeedsNoSQL, Config.NeedsCache, Config.HasDatabase,
    List.contains, hvj, cfgJsonPR]
  · rw [redisContent_cfgJsonPR_eq]; decide
  · simp [generate, databaseOps, configFilesOps, ciOps, testOps, dirList,
    Config.NeedsSQL, Config.NeedsNoSQL, Config.NeedsCache, Config.HasDatabase,
    List.contains, hve, cfgEnvPR, cfgJsonPR]
  · rw [postgresContent_cfgEnvPR_eq]; decide
  · rw [postgresContent_cfgEnvPR_eq]; decide
  · simp [generate, databaseOps, configFilesOps, ciOps, testOps, dirList,
    Config.NeedsSQL, Config.NeedsNoSQL, Config.NeedsCache, Config.HasDatabase,
    List.contains, hve, cfgEnvPR, cfgJsonPR]
  · rw [redisContent_cfgEnvPR_eq]; decide
  · rw [redisContent_cfgEnvPR_eq]; decide

/-- C5: an empty `ConfigFormat` is treated identically to `env` throughout a
generation run: for every configuration and every instantiation of the
format-independent content helpers, the run with format `""` performs
exactly the same operations (same files, same contents, same order) and
returns the same error as the run with format `"env"`. -/
theorem empty_format_generates_identically_to_env (aux : AuxContent)
    (outputDir : String) (c : Config) :
    generate aux outputDir { c with ConfigFormat := "" } =
      generate aux outputDir { c with ConfigFormat := "env" } := rfl

/-- C10: `Generate` validates the configuration before any filesystem
effect: whenever `Config.Validate` returns an error, the run returns that
error wrapped as "invalid configuration: ..." and performs no directory
creation and no file write. -/
theorem generate_validates_before_any_effect (aux : AuxContent)
    (outputDir : String) (c : Config) (e : String)
    (h : c.Validate = some e) :
    generate aux outputDir c = ([], some ("invalid configuration: " ++ e)) := by
  unfold generate
  rw [h]

/-- Witness for C10 at a configuration with an empty project name. -/
theorem generate_validates_before_any_effect_witness :
    invalidConfig.Validate = some "project name is required" ∧
    generate trivialContent "out" invalidConfig =
      ([], some "invalid configuration: project name is required") :=
  ⟨rfl,
    generate_validates_before_any_effect trivialContent "out" invalidConfig
      "project name is required" rfl⟩
